import Mathlib

/-!
A shallow embedding of `src/components/result/Graph.tsx`, the stateful
curve-rendering and axis-management engine of the LoRa airtime graph widget.

The component's React state (`data`, `revision`, `layout`, the two axis-mode
flags, the `usePrevious` bookkeeping and the window width) is collected in
`GraphState`.  Each `useEffect` of the source becomes a state-transition
function: `configEffect` (the effect keyed on region / previous region /
coding rate / selected packet size, lines 115-179), `verticalEffect`
(keyed on `yAxisLogarithmic`, lines 181-193) and `xaxisEffect` (keyed on
`windowWidth` / `xAxisFitFullRange`, lines 195-212).  The user actions
`toggleScale`, `toggleFitFullRange` and a viewport `resize` flip the
corresponding input and run the effect that reacts to it.

JavaScript reference semantics matter for `region !== prevRegion`, and for
the layout object that the overlay-removal branch mutates in place; both
`Region` and `Layout` therefore carry a `refId` field modelling the object
reference, distinct from the carried value.

External collaborators that are part of this repository but not under
`src/` (`calculateAirtime`, `getDataRates`, `range`, `toLogarithmic`,
`mergeAndTriggerRender` / `triggerRender`, the button handlers) are
modelled from the spec; each such definition carries a doc comment
starting with "Modelled from the spec:".  JavaScript numbers are modelled
by exact rationals where the code only does field arithmetic, and by real
numbers where the base-10 logarithm is involved.
-/

/-- Modelled from the spec: spreading factor is a physical-layer parameter
"treated as opaque enumerations by this core" (`utils/types` is not under
`src/`). -/
inductive SpreadingFactor
  | sf7 | sf8 | sf9 | sf10 | sf11 | sf12
deriving DecidableEq, Inhabited

/-- Modelled from the spec: "CodingRate: an enumerated value (coding-rate
scheme)"; an enumerated value compares by value under JS strict equality. -/
inductive CodingRate
  | cr45 | cr46 | cr47 | cr48
deriving DecidableEq, Inhabited

/-- Modelled from the spec: bandwidth, an opaque enumeration. -/
inductive Bandwidth
  | bw125 | bw250 | bw500
deriving DecidableEq, Inhabited

/-- Modelled from the spec: "radio mode flag", an opaque enumeration. -/
inductive LoraMode
  | modeA | modeB
deriving DecidableEq, Inhabited

/-- Modelled from the spec: the highlight classification
"`none | low | high` used only to pick a default visibility and stroke
weight" of a data-rate descriptor. -/
inductive Highlight
  | none | low | high
deriving DecidableEq, Inhabited

/-- Modelled from the spec: DataRateDescriptor — "value label, display
color, a highlight classification" — together with the glossary's
"Data rate: a named combination of spreading factor and bandwidth offered
by a region" (`utils/datarates` and `utils/types` are not under `src/`).
The source's `updateGraph` reads only `value`, `color` and `highlight`;
the `spreadingFactor` and `bandwidth` fields record which combination the
descriptor names. -/
structure DataRate where
  value : ℕ
  color : String
  highlight : Highlight
  spreadingFactor : SpreadingFactor
  bandwidth : Bandwidth
deriving DecidableEq, Inhabited

/-- The value carried by a region object: identifier, ordered spreading
factors and bandwidths, radio mode, maximum MAC payload size, optional
maximum dwell time, and (modelled from the spec) its data-rate catalog. -/
structure RegionData where
  name : String
  spreadingFactors : List SpreadingFactor
  bandwidths : List Bandwidth
  loraMode : LoraMode
  maxMacPayloadSize : ℤ
  maxDwellTime : Option ℚ
  dataRates : List DataRate
deriving DecidableEq, Inhabited

/-- A region prop as the component receives it: a JS object.  `refId`
models the object reference (JS `!==` compares references for objects),
`data` the carried value. -/
structure Region where
  refId : ℕ
  data : RegionData
deriving DecidableEq, Inhabited

def Region.spreadingFactors (r : Region) : List SpreadingFactor := r.data.spreadingFactors

def Region.bandwidths (r : Region) : List Bandwidth := r.data.bandwidths

def Region.loraMode (r : Region) : LoraMode := r.data.loraMode

def Region.maxMacPayloadSize (r : Region) : ℤ := r.data.maxMacPayloadSize

def Region.maxDwellTime (r : Region) : Option ℚ := r.data.maxDwellTime

/-- Modelled from the spec: "DataRateCatalog(region) -> ordered sequence of
DataRateDescriptor: pure function of region identity" (`getDataRates` is
not under `src/`); the catalog is represented as data carried by the
region. -/
def getDataRates (r : Region) : List DataRate := r.data.dataRates

/-- Plotly trace visibility: `true`, `false` or `'legendonly'`. -/
inductive Vis
  | shown | hidden | legendonly
deriving DecidableEq, Inhabited

/-- Plotly y-axis scale type, `'linear'` or `'log'`. -/
inductive AxisType
  | linear | log
deriving DecidableEq, Inhabited

/-- One entry of `layout.annotations` as built at lines 151-168 of the
source: the "max dwell time" label. -/
structure Ann where
  text : String
  x : ℚ
  xref : String
  xanchor : String
  y : ℝ
  yanchor : String
  showarrow : Bool
  fontColor : String
  opacity : ℚ

/-- One entry of `layout.shapes` as built at lines 134-149 of the source:
the horizontal dwell-time reference line. -/
structure Shape where
  x0 : ℚ
  y0 : ℝ
  x1 : ℚ
  y1 : ℝ
  xref : String
  opacity : ℚ
  lineColor : String
  lineWidth : ℕ
  dash : String

/-- One series of the `data` state (the source's `PlotData`, lines 12-14
and the object built at lines 81-105). -/
structure PlotData where
  name : String
  x : List ℤ
  y : List ℝ
  mode : String
  color : String
  width : ℕ
  hovertemplate : String
  visible : Option Vis
  connectgaps : Bool

/-- The managed part of the Plotly layout state (lines 31-55 and the three
`setLayout` call sites).  `refId` models the JS object reference: every
`setLayout` updater in the source returns the very object it received
(lodash `merge` mutates its destination; the removal branch deletes fields
on `current` and returns it), so the reference is preserved by every
transition.  Fields the component never touches (margins, drag mode,
legend, tick style, axis titles of the x axis) are constants of the
initial literal and are omitted. -/
structure Layout where
  refId : ℕ
  shapes : Option (List Shape)
  annotations : Option (List Ann)
  yaxisType : Option AxisType
  yaxisTitle : Option String
  xAutorange : Bool
  xFixedrange : Option Bool
  xRange : Option (ℚ × ℚ)

/-- The component state: the `useState` cells, the `usePrevious` cells and
the window width signal. -/
structure GraphState where
  xAxisFitFullRange : Bool
  yAxisLogarithmic : Bool
  revision : ℕ
  data : List PlotData
  layout : Layout
  prevRegion : Option Region
  prevCodingRate : Option CodingRate
  windowWidth : ℚ

/-- Modelled from the spec: the boundary signature of the external
AirtimeFormula — "(payloadBytes, spreadingFactor, bandwidth, codingRate,
radioMode, preambleLength, explicitHeader, lowDataRateOptimize,
crcEnabled) -> airtimeMilliseconds: pure, deterministic"
(`calculateAirtime` lives in `utils/calculator`, not under `src/`). -/
def AirtimeF : Type :=
  ℤ → SpreadingFactor → Bandwidth → CodingRate → LoraMode → ℕ → Bool → Bool → Bool → ℝ

/-- Modelled from the spec: the SequenceGenerator — "every 10th integer
from 0 up to maxPayloadSize inclusive", with the last point clipped to the
declared maximum even when it is not a multiple of the stride
(`utils/range` is not under `src/`): the strict multiples of `step` below
`stop`, followed by `stop` itself. -/
def range (start stop step : ℤ) : List ℤ :=
  ((List.range (((stop - start + step - 1) / step).toNat)).map fun k =>
    start + (k : ℤ) * step) ++ [stop]

/-- JS `Array.prototype.map` with the `(element, index)` callback, as used
by `dataRates.map((dr, idx) => ...)` at line 75; the second argument is
the index of the first element. -/
def mapWithIndex (f : ℕ → α → β) : ℕ → List α → List β
  | _, [] => []
  | i, a :: as => f i a :: mapWithIndex f (i + 1) as

/-- JS truthiness of an optional number (`if (region.maxDwellTime)`):
false when absent or zero. -/
def truthy : Option ℚ → Bool
  | Option.none => false
  | Option.some v => decide (v ≠ 0)

/-- JS `prevRegion?.maxDwellTime` as a truthiness test (line 171). -/
def prevDwellTruthy : Option Region → Bool
  | Option.none => false
  | Option.some p => truthy p.maxDwellTime

/-- JS `codingRate !== prevCodingRate` (line 76): strict inequality on an
enumerated value is value inequality; the previous value is `undefined`
on the first render. -/
def codingRateNeq : CodingRate → Option CodingRate → Bool
  | _, Option.none => true
  | c, Option.some p => decide (c ≠ p)

/-- JS `region !== prevRegion` (line 76): strict inequality on objects is
reference inequality, modelled by comparing `refId`; the previous value is
`undefined` on the first render. -/
def regionNeq : Region → Option Region → Bool
  | _, Option.none => true
  | r, Option.some p => decide (r.refId ≠ p.refId)

/-- Line 76: `codingRate !== prevCodingRate || region !== prevRegion`. -/
def resetVisibleTraces (codingRate : CodingRate) (prevCodingRate : Option CodingRate)
    (region : Region) (prevRegion : Option Region) : Bool :=
  codingRateNeq codingRate prevCodingRate || regionNeq region prevRegion

/-- Line 78: `dr.highlight === 'low' ? 'legendonly' : true`. -/
def configuredVisible (dr : DataRate) : Vis :=
  if dr.highlight = Highlight.low then Vis.legendonly else Vis.shown

def preambleLength : ℕ := 8

def explicitHeader : Bool := true

def lowDataRateOptimize : Bool := false

def crc : Bool := true

/-- Modelled from the spec: `toLogarithmic` is not under `src/`.  Spec
§4.3: "if switching to logarithmic, replace the raw threshold value with
its base-10 logarithm for display purposes; if switching to linear, use
the raw (untransformed) value" — applied to the currently displayed
coordinate, recovering the raw value means inverting the logarithm. -/
noncomputable def toLogarithmic : Bool → ℝ → ℝ
  | true, v => Real.logb 10 v
  | false, v => (10 : ℝ) ^ v

/-- The dwell-time reference line built at lines 134-149 of the source:
a dashed horizontal line at the threshold value spanning the paper-wide
horizontal extent. -/
def dwellShape (v : ℝ) : Shape :=
  { x0 := 0
    y0 := v
    x1 := 1
    y1 := v
    xref := "paper"
    opacity := 1/5
    lineColor := "red"
    lineWidth := 2
    dash := "dashdot" }

/-- The "max dwell time" label built at lines 151-168 of the source; its
y-coordinate is log-transformed exactly when the current y-axis type is
`'log'` (the `logAxis` argument embeds `current.yaxis?.type === 'log'`). -/
noncomputable def dwellLabel (logAxis : Bool) (v : ℝ) : Ann :=
  { text := "max dwell time"
    x := 1
    xref := "paper"
    xanchor := "right"
    y := if logAxis then toLogarithmic true v else v
    yanchor := "bottom"
    showarrow := false
    fontColor := "red"
    opacity := 2/5 }

/-- The trace object built for one data rate at lines 76-105 of the
source.  Note that the airtime is evaluated at the `spreadingFactor` and
`bandwidth` arguments of `updateGraph`, not at anything carried by `dr`:
the source reads only `dr.value`, `dr.color` and `dr.highlight`. -/
def mkTrace (calculateAirtime : AirtimeF) (region : Region) (codingRate : CodingRate)
    (spreadingFactor : SpreadingFactor) (bandwidth : Bandwidth) (loraMode : LoraMode)
    (overhead maxPayloadSize : ℤ) (prevRegion : Option Region)
    (prevCodingRate : Option CodingRate) (currentData : List PlotData)
    (idx : ℕ) (dr : DataRate) : PlotData :=
  let reset := resetVisibleTraces codingRate prevCodingRate region prevRegion
  let current := (currentData.get? idx).bind PlotData.visible
  let configured := configuredVisible dr
  let visible := if reset then configured else current.getD configured
  { name := "DR" ++ toString dr.value
    x := range 0 maxPayloadSize 10
    y := (range 0 maxPayloadSize 10).map fun x =>
      calculateAirtime (x + overhead) spreadingFactor bandwidth codingRate loraMode
        preambleLength explicitHeader lowDataRateOptimize crc
    mode := "lines"
    color := dr.color
    width := if dr.highlight = Highlight.high then 3 else 1
    hovertemplate := "PHYPayload: %{x}B<br>Airtime: %{y}ms"
    visible := Option.some visible
    connectgaps := true }

/-- Lines 62-113 of the source: the guarded recomputation.  Returns the
new `(data, revision)` pair published by `setData` / `setRevision`; when
`maxPayloadSize <= 0` nothing runs and the previous pair stands. -/
def updateGraph (calculateAirtime : AirtimeF) (region : Region) (codingRate : CodingRate)
    (spreadingFactor : SpreadingFactor) (bandwidth : Bandwidth) (loraMode : LoraMode)
    (overhead maxPayloadSize : ℤ) (prevRegion : Option Region)
    (prevCodingRate : Option CodingRate) (data : List PlotData) (revision : ℕ) :
    List PlotData × ℕ :=
  if 0 < maxPayloadSize then
    (mapWithIndex
      (mkTrace calculateAirtime region codingRate spreadingFactor bandwidth loraMode
        overhead maxPayloadSize prevRegion prevCodingRate data)
      0 (getDataRates region),
     revision + 1)
  else (data, revision)

/-- Lines 115-179 of the source: the effect keyed on region, previous
region, coding rate and selected packet size.  `selectedPacketSize` is a
declared trigger but is never read inside the effect body, so it is not a
parameter here; a packet-size-only change is modelled by running this
effect again with the region and coding rate unchanged.  The early return
on a missing coding rate skips the body; `updateGraph` is called with the
region's first spreading factor and bandwidth, overhead 5 and
`maxMacPayloadSize + 5`.  The dwell-overlay branches mirror lines
130-178: creation merges a one-element `shapes` and `annotations` into
the current layout object and triggers a render (modelled from the spec:
`mergeAndTriggerRender` is not under `src/`; it lodash-merges into the
current layout object and bumps the revision token); removal deletes both
fields on the current layout object, triggers a render and returns the
same object.  The `usePrevious` cells take the current props for the next
run (modelled from the spec: `usePrevious` is not under `src/`; it yields
the value seen on the previous render). -/
noncomputable def configEffect (calculateAirtime : AirtimeF) (region : Region)
    (codingRate : Option CodingRate) (s : GraphState) : GraphState :=
  match codingRate with
  | Option.none => { s with prevRegion := Option.some region, prevCodingRate := Option.none }
  | Option.some cr =>
    let p := updateGraph calculateAirtime region cr
      region.spreadingFactors.headI region.bandwidths.headI region.loraMode
      5 (region.maxMacPayloadSize + 5) s.prevRegion s.prevCodingRate s.data s.revision
    let s1 : GraphState := { s with data := p.1, revision := p.2 }
    let s2 : GraphState :=
      if truthy region.maxDwellTime then
        let v : ℝ := ((region.maxDwellTime.getD 0 : ℚ) : ℝ)
        { s1 with
          layout := { s1.layout with
            shapes := Option.some [dwellShape v]
            annotations :=
              Option.some [dwellLabel (s1.layout.yaxisType = Option.some AxisType.log) v] }
          revision := s1.revision + 1 }
      else if prevDwellTruthy s.prevRegion then
        { s1 with
          layout := { s1.layout with shapes := Option.none, annotations := Option.none }
          revision := s1.revision + 1 }
      else s1
    { s2 with prevRegion := Option.some region, prevCodingRate := Option.some cr }

/-- Lines 181-193 of the source: the effect keyed on `yAxisLogarithmic`.
The y-axis type and title are set for the new mode and every existing
annotation's y-coordinate is mapped through `toLogarithmic`; the `shapes`
field is not touched.  The merge into the current layout object triggers
a render (revision bump). -/
noncomputable def verticalEffect (yAxisLogarithmic : Bool) (s : GraphState) : GraphState :=
  { s with
    layout := { s.layout with
      yaxisType := Option.some (if yAxisLogarithmic then AxisType.log else AxisType.linear)
      yaxisTitle := Option.some
        (if yAxisLogarithmic then "airtime (ms, logarithmic)" else "airtime (ms)")
      annotations := s.layout.annotations.map (List.map fun a =>
        { a with y := toLogarithmic yAxisLogarithmic a.y }) }
    revision := s.revision + 1 }

/-- Modelled from the spec: the "toggle vertical scale" user action flips
the vertical mode (§4.3 "user toggle action flips the state"; the
`toggleScale` handler body is not under `src/`), upon which the effect
keyed on `yAxisLogarithmic` re-runs. -/
noncomputable def toggleScale (s : GraphState) : GraphState :=
  verticalEffect (!s.yAxisLogarithmic) { s with yAxisLogarithmic := !s.yAxisLogarithmic }

/-- Lines 195-212 of the source: the effect keyed on `windowWidth` and
`xAxisFitFullRange`.  The fixed-scale range is `[0, (windowWidth - 312) / 6]`;
in fit-all mode the current explicit range is kept as a fallback.  The
merge into the current layout object triggers a render (revision bump). -/
def xaxisEffect (s : GraphState) : GraphState :=
  let xaxisFixedScaleRange : ℚ × ℚ := (0, (s.windowWidth - 312) / 6)
  let xaxisRange := if s.xAxisFitFullRange then s.layout.xRange.getD xaxisFixedScaleRange
    else xaxisFixedScaleRange
  { s with
    layout := { s.layout with
      xAutorange := s.xAxisFitFullRange
      xFixedrange := Option.some s.xAxisFitFullRange
      xRange := Option.some xaxisRange }
    revision := s.revision + 1 }

/-- A viewport width change: the host signal updates and the effect keyed
on `windowWidth` re-runs. -/
def resize (w : ℚ) (s : GraphState) : GraphState := xaxisEffect { s with windowWidth := w }

/-- Modelled from the spec: the "toggle horizontal mode" user action flips
the horizontal mode (§4.3; the `toggleFitFullRange` handler body is not
under `src/`), upon which the effect keyed on `xAxisFitFullRange`
re-runs. -/
def toggleFitFullRange (s : GraphState) : GraphState :=
  xaxisEffect { s with xAxisFitFullRange := !s.xAxisFitFullRange }

/-- The initial layout literal of lines 31-55 (managed fields only). -/
def initialLayout : Layout :=
  { refId := 0, shapes := Option.none, annotations := Option.none,
    yaxisType := Option.none, yaxisTitle := Option.none,
    xAutorange := false, xFixedrange := Option.none, xRange := Option.some (0, 100) }

/-- The initial component state of lines 22-55. -/
def initialState : GraphState :=
  { xAxisFitFullRange := true, yAxisLogarithmic := false, revision := 0, data := [],
    layout := initialLayout, prevRegion := Option.none, prevCodingRate := Option.none,
    windowWidth := 970 }

/-- A trivial instance of the external airtime formula, for concrete runs. -/
noncomputable def fZero : AirtimeF := fun _ _ _ _ _ _ _ _ _ => 0

/-- A numeric weight per spreading factor, used to build an airtime
formula instance that distinguishes spreading factors. -/
def sfNum : SpreadingFactor → ℕ
  | SpreadingFactor.sf7 => 7
  | SpreadingFactor.sf8 => 8
  | SpreadingFactor.sf9 => 9
  | SpreadingFactor.sf10 => 10
  | SpreadingFactor.sf11 => 11
  | SpreadingFactor.sf12 => 12

/-- An airtime formula instance that is sensitive to the spreading
factor. -/
noncomputable def fSF : AirtimeF := fun p sf _ _ _ _ _ _ _ => (sfNum sf : ℝ) * (p : ℝ)

/-- A catalog entry with no highlight (configured visibility: visible). -/
def drPlain : DataRate :=
  { value := 3, color := "blue", highlight := Highlight.none,
    spreadingFactor := SpreadingFactor.sf9, bandwidth := Bandwidth.bw125 }

/-- A catalog entry with highlight `low` (configured visibility:
legend-only). -/
def drLow : DataRate :=
  { value := 0, color := "gray", highlight := Highlight.low,
    spreadingFactor := SpreadingFactor.sf12, bandwidth := Bandwidth.bw125 }

/-- Catalog entry for the failing input of the per-data-rate curve claim:
spreading factor 12. -/
def drC3a : DataRate :=
  { value := 0, color := "red", highlight := Highlight.none,
    spreadingFactor := SpreadingFactor.sf12, bandwidth := Bandwidth.bw125 }

/-- Catalog entry for the failing input of the per-data-rate curve claim:
spreading factor 7. -/
def drC3b : DataRate :=
  { value := 5, color := "blue", highlight := Highlight.none,
    spreadingFactor := SpreadingFactor.sf7, bandwidth := Bandwidth.bw125 }

/-- A region value without a dwell-time limit. -/
def regionDataNoDwell : RegionData :=
  { name := "EU868", spreadingFactors := [SpreadingFactor.sf12],
    bandwidths := [Bandwidth.bw125], loraMode := LoraMode.modeA,
    maxMacPayloadSize := 10, maxDwellTime := Option.none,
    dataRates := [drPlain, drLow] }

/-- A region value with a 500 ms dwell-time limit. -/
def regionDataDwell : RegionData :=
  { name := "AS923", spreadingFactors := [SpreadingFactor.sf10],
    bandwidths := [Bandwidth.bw125], loraMode := LoraMode.modeA,
    maxMacPayloadSize := 10, maxDwellTime := Option.some 500,
    dataRates := [drPlain] }

/-- The region value without a dwell time, used for the two value-equal
but reference-distinct region objects. -/
def regionData4 : RegionData :=
  { name := "US915", spreadingFactors := [SpreadingFactor.sf10],
    bandwidths := [Bandwidth.bw500], loraMode := LoraMode.modeA,
    maxMacPayloadSize := 10, maxDwellTime := Option.none,
    dataRates := [drPlain] }

/-- The region value for the identical-curves failing input: two catalog
data rates with different spreading factors. -/
def regionDataC3 : RegionData :=
  { name := "EU868", spreadingFactors := [SpreadingFactor.sf12, SpreadingFactor.sf7],
    bandwidths := [Bandwidth.bw125], loraMode := LoraMode.modeA,
    maxMacPayloadSize := 15, maxDwellTime := Option.none,
    dataRates := [drC3a, drC3b] }

/-- A region object (one fixed reference) carrying `regionDataNoDwell`. -/
def rSame : Region := { refId := 3, data := regionDataNoDwell }

/-- A region object carrying `regionData4`. -/
def rA4 : Region := { refId := 1, data := regionData4 }

/-- A second, distinct region object carrying the same value
`regionData4`: value-equal to `rA4` but a different reference. -/
def rB4 : Region := { refId := 2, data := regionData4 }

/-- A region object with a dwell-time limit. -/
def rDwell : Region := { refId := 5, data := regionDataDwell }

/-- A region object without a dwell-time limit. -/
def rNoDwell : Region := { refId := 6, data := regionData4 }

/-- A region object with two data rates of different spreading factors. -/
def rC3 : Region := { refId := 11, data := regionDataC3 }

/-- A region object whose catalog starts with the `low`-highlight data
rate, for the visibility-preservation scenario. -/
def rC5 : Region :=
  { refId := 9,
    data := { name := "EU868", spreadingFactors := [SpreadingFactor.sf12],
              bandwidths := [Bandwidth.bw125], loraMode := LoraMode.modeA,
              maxMacPayloadSize := 10, maxDwellTime := Option.none,
              dataRates := [drLow, drPlain] } }

/-- A previously published series whose visibility the user toggled to
fully visible. -/
noncomputable def traceShown : PlotData :=
  { name := "DR0", x := [], y := [], mode := "lines", color := "gray", width := 1,
    hovertemplate := "", visible := Option.some Vis.shown, connectgaps := true }

/-- A previously published series whose visibility the user toggled to
legend-only. -/
noncomputable def traceLegendonly : PlotData :=
  { name := "DR3", x := [], y := [], mode := "lines", color := "blue", width := 1,
    hovertemplate := "", visible := Option.some Vis.legendonly, connectgaps := true }

/-- The dwell overlay label at displayed y-coordinate 500, as it exists in
linear mode. -/
noncomputable def annBase : Ann :=
  { text := "max dwell time", x := 1, xref := "paper", xanchor := "right",
    y := 500, yanchor := "bottom", showarrow := false, fontColor := "red",
    opacity := 2/5 }

/-- The dwell overlay reference line at threshold 500. -/
noncomputable def shapeBase : Shape := dwellShape 500

/-- A state in linear vertical mode with an existing dwell overlay whose
threshold value is 500. -/
noncomputable def sOverlayLinear : GraphState :=
  { initialState with
    layout := { initialLayout with
      shapes := Option.some [shapeBase]
      annotations := Option.some [annBase] } }

/-- A state whose previous-render props already equal the current ones:
the situation of a packet-size-only input change. -/
def sC2 : GraphState :=
  { initialState with
    revision := 5
    prevRegion := Option.some rSame
    prevCodingRate := Option.some CodingRate.cr45 }

/-- A state in fixed-scale (scrollable) horizontal mode. -/
def sFixed : GraphState := { initialState with xAxisFitFullRange := false }

theorem mapWithIndex_get? (f : ℕ → α → β) (k : ℕ) (l : List α) (i : ℕ) :
    (mapWithIndex f k l).get? i = (l.get? i).map (f (k + i)) := by
  induction l generalizing k i with
  | nil => simp [mapWithIndex]
  | cons a as ih =>
    cases i with
    | zero => simp [mapWithIndex]
    | succ n =>
      have h : k + 1 + n = k + (n + 1) := by omega
      have e1 : (mapWithIndex f k (a :: as)).get? (n + 1)
          = (mapWithIndex f (k + 1) as).get? n := rfl
      have e2 : ((a :: as).get? (n + 1)) = as.get? n := rfl
      rw [e1, e2, ih (k + 1) n, h]

/-- Claim C9: calling the curve recomputation with a non-positive
`maxPayloadSize` is a no-op — no series are produced and the previously
published data and revision remain unchanged, with no error surfaced (the
guard of line 72 simply skips the body). -/
theorem C9_updateGraph_noop (f : AirtimeF) (r : Region) (c : CodingRate)
    (sf : SpreadingFactor) (bw : Bandwidth) (m : LoraMode) (oh mps : ℤ)
    (pr : Option Region) (pc : Option CodingRate) (data : List PlotData) (rev : ℕ)
    (h : mps ≤ 0) :
    updateGraph f r c sf bw m oh mps pr pc data rev = (data, rev) := by
  unfold updateGraph
  rw [if_neg (by omega)]

theorem C9_updateGraph_noop_witness :
    updateGraph fZero rSame CodingRate.cr45 SpreadingFactor.sf12 Bandwidth.bw125
      LoraMode.modeA 5 0 Option.none Option.none [] 7 = ([], 7) :=
  C9_updateGraph_noop fZero rSame CodingRate.cr45 SpreadingFactor.sf12 Bandwidth.bw125
    LoraMode.modeA 5 0 Option.none Option.none [] 7 (by decide)

/-- Claim C10: in fixed-scale horizontal mode the horizontal range is
recomputed on every viewport-width change as `[0, (viewportWidth - 312) / 6]`;
in particular viewport width 970 yields `[0, 329/3]` (= 109.666...). -/
theorem C10_fixed_scale_range (s : GraphState) (w : ℚ)
    (h : s.xAxisFitFullRange = false) :
    (resize w s).layout.xRange = Option.some (0, (w - 312) / 6) ∧
    (resize 970 s).layout.xRange = Option.some (0, 329 / 3) := by
  constructor
  · simp [resize, xaxisEffect, h]
  · simp [resize, xaxisEffect, h]
    norm_num

theorem C10_fixed_scale_range_witness :
    (resize 500 sFixed).layout.xRange = Option.some (0, ((500 : ℚ) - 312) / 6) ∧
    (resize 970 sFixed).layout.xRange = Option.some (0, 329 / 3) :=
  C10_fixed_scale_range sFixed 500 rfl

/-- Claim C5: on a recomputation that is not a reset (coding rate equal to
the previous one by value, region the same object as the previous one),
the series at catalog index `i` takes the visibility of the previous
series at the same index when one exists, and otherwise falls back to the
configured default (the total function cannot crash on an index
mismatch). -/
theorem C5_visibility_preserved (f : AirtimeF) (c : CodingRate) (r p : Region)
    (sf : SpreadingFactor) (bw : Bandwidth) (m : LoraMode) (oh mps : ℤ)
    (data : List PlotData) (rev : ℕ) (i : ℕ) (dr : DataRate)
    (hmps : 0 < mps) (hid : p.refId = r.refId)
    (hdr : (getDataRates r).get? i = Option.some dr) :
    (((updateGraph f r c sf bw m oh mps (Option.some p) (Option.some c)
        data rev).1.get? i).bind PlotData.visible) =
      Option.some (((data.get? i).bind PlotData.visible).getD (configuredVisible dr)) := by
  unfold updateGraph
  rw [if_pos hmps]
  simp only [mapWithIndex_get?, Nat.zero_add, hdr]
  simp [mkTrace, resetVisibleTraces, codingRateNeq, regionNeq, hid]

theorem C5_visibility_preserved_witness :
    ((((updateGraph fZero rC5 CodingRate.cr45 SpreadingFactor.sf12 Bandwidth.bw125
        LoraMode.modeA 5 15 (Option.some rC5) (Option.some CodingRate.cr45)
        [traceShown] 0).1.get? 0).bind PlotData.visible) =
      Option.some Vis.shown) ∧
    ((((updateGraph fZero rC5 CodingRate.cr45 SpreadingFactor.sf12 Bandwidth.bw125
        LoraMode.modeA 5 15 (Option.some rC5) (Option.some CodingRate.cr45)
        [traceShown] 0).1.get? 1).bind PlotData.visible) =
      Option.some Vis.shown) := by
  constructor
  · have h := C5_visibility_preserved fZero CodingRate.cr45 rC5 rC5
      SpreadingFactor.sf12 Bandwidth.bw125 LoraMode.modeA 5 15 [traceShown] 0 0 drLow
      (by decide) rfl rfl
    simpa [traceShown] using h
  · have h := C5_visibility_preserved fZero CodingRate.cr45 rC5 rC5
      SpreadingFactor.sf12 Bandwidth.bw125 LoraMode.modeA 5 15 [traceShown] 0 1 drPlain
      (by decide) rfl rfl
    simpa [configuredVisible, drPlain] using h

/-- Claim C4, counterexample: the reset trigger is reference comparison,
not value comparison, on the region.  `rA4` and `rB4` carry the same
region value but are distinct objects; a recomputation with the region
replaced by the value-equal object still triggers the reset and discards
the user's legend-only toggle (the claimed iff with value equality fails,
since under value equality nothing differs). -/
theorem C4_reset_counterexample :
    rB4.data = rA4.data ∧
    resetVisibleTraces CodingRate.cr45 (Option.some CodingRate.cr45) rB4
      (Option.some rA4) = true ∧
    (((updateGraph fZero rB4 CodingRate.cr45 SpreadingFactor.sf10 Bandwidth.bw500
        LoraMode.modeA 5 15 (Option.some rA4) (Option.some CodingRate.cr45)
        [traceLegendonly] 0).1.get? 0).bind PlotData.visible) =
      Option.some Vis.shown := by
  refine ⟨rfl, by decide, ?_⟩
  rfl

/-- Claim C4, amended: the visibility-reset trigger is true iff the coding
rate differs from the previous one by value, or the region differs from
the previous one by object reference (so two value-equal but distinct
region objects also trigger a reset); when it is true, every produced
series' visibility is the configured default — legend-only for highlight
`low`, visible otherwise — discarding any prior toggle. -/
theorem C4_reset_trigger (f : AirtimeF) (c : CodingRate) (pc : Option CodingRate)
    (r : Region) (pr : Option Region) (sf : SpreadingFactor) (bw : Bandwidth)
    (m : LoraMode) (oh mps : ℤ) (data : List PlotData) (rev : ℕ) (i : ℕ) (dr : DataRate)
    (hmps : 0 < mps) (hdr : (getDataRates r).get? i = Option.some dr)
    (hreset : resetVisibleTraces c pc r pr = true) :
    ((((updateGraph f r c sf bw m oh mps pr pc data rev).1.get? i).bind
        PlotData.visible) = Option.some (configuredVisible dr)) ∧
    (resetVisibleTraces c pc r pr = false ↔
      pc = Option.some c ∧ ∃ p, pr = Option.some p ∧ p.refId = r.refId) := by
  constructor
  · unfold updateGraph
    rw [if_pos hmps]
    simp only [mapWithIndex_get?, Nat.zero_add, hdr]
    simp [mkTrace, hreset]
  · cases pc with
    | none => simp [resetVisibleTraces, codingRateNeq]
    | some pcv =>
      cases pr with
      | none => simp [resetVisibleTraces, codingRateNeq, regionNeq]
      | some pv =>
        simp only [resetVisibleTraces, codingRateNeq, regionNeq, Bool.or_eq_false_iff,
          decide_eq_false_iff_not, not_not, Option.some.injEq]
        constructor
        · rintro ⟨h1, h2⟩
          exact ⟨h1.symm, pv, rfl, h2.symm⟩
        · rintro ⟨h1, p, hp, h2⟩
          cases hp
          exact ⟨h1.symm, h2.symm⟩

theorem C4_reset_trigger_witness :
    ((((updateGraph fZero rA4 CodingRate.cr45 SpreadingFactor.sf10 Bandwidth.bw500
        LoraMode.modeA 5 15 (Option.some rA4) (Option.some CodingRate.cr46)
        [traceLegendonly] 0).1.get? 0).bind PlotData.visible) =
      Option.some (configuredVisible drPlain)) ∧
    (resetVisibleTraces CodingRate.cr45 (Option.some CodingRate.cr46) rA4
        (Option.some rA4) = false ↔
      Option.some CodingRate.cr46 = Option.some CodingRate.cr45 ∧
        ∃ p, Option.some rA4 = Option.some p ∧ p.refId = rA4.refId) :=
  C4_reset_trigger fZero CodingRate.cr45 (Option.some CodingRate.cr46) rA4
    (Option.some rA4) SpreadingFactor.sf10 Bandwidth.bw500 LoraMode.modeA 5 15
    [traceLegendonly] 0 0 drPlain (by decide) rfl (by decide)

/-- Claim C2, counterexample: a packet-size-only input change (region and
coding rate both equal to the previously applied ones — here literally the
same objects) re-runs the effect of lines 115-179, which calls
`updateGraph` and bumps the revision: the revision of the current snapshot
is not unchanged. -/
theorem C2_packet_size_counterexample :
    (configEffect fZero rSame (Option.some CodingRate.cr45) sC2).revision ≠
      sC2.revision := by
  have h1 : (configEffect fZero rSame (Option.some CodingRate.cr45) sC2).revision = 6 := rfl
  have h2 : sC2.revision = 5 := rfl
  omega

/-- Claim C2, amended: a change of the packet-size input alone re-triggers
the recomputation — the data is replaced by a freshly computed curve set
(whose values cannot depend on the packet size, which is not an input of
the computation) and the revision counter strictly increases: by one for
a region without a dwell time, and by two for a region declaring one,
since the dwell-overlay branch of the same effect re-runs as well and
triggers a second render; neither the data cell nor the revision is left
unchanged. -/
theorem C2_packet_size_rerun (f : AirtimeF) (r : Region) (c : CodingRate)
    (s : GraphState) (hpr : s.prevRegion = Option.some r)
    (_hpc : s.prevCodingRate = Option.some c)
    (hmps : 0 < r.maxMacPayloadSize + 5) :
    (configEffect f r (Option.some c) s).revision =
      s.revision + (if truthy r.maxDwellTime then 2 else 1) ∧
    (configEffect f r (Option.some c) s).data =
      (updateGraph f r c r.spreadingFactors.headI r.bandwidths.headI r.loraMode 5
        (r.maxMacPayloadSize + 5) s.prevRegion s.prevCodingRate s.data s.revision).1 := by
  have hrev : (updateGraph f r c r.spreadingFactors.headI r.bandwidths.headI r.loraMode 5
      (r.maxMacPayloadSize + 5) s.prevRegion s.prevCodingRate s.data s.revision).2
      = s.revision + 1 := by
    unfold updateGraph
    rw [if_pos hmps]
  have hpd : prevDwellTruthy s.prevRegion = truthy r.maxDwellTime := by
    rw [hpr]
    rfl
  cases htr : truthy r.maxDwellTime with
  | true =>
    constructor
    · simp [configEffect, htr, hrev]
    · simp [configEffect, htr]
  | false =>
    constructor
    · simp [configEffect, htr, hpd, hrev]
    · simp [configEffect, htr, hpd]

theorem C2_packet_size_rerun_witness :
    ((configEffect fZero rSame (Option.some CodingRate.cr45) sC2).revision =
      sC2.revision + 1) ∧
    ((configEffect fZero rDwell (Option.some CodingRate.cr45)
        { sC2 with prevRegion := Option.some rDwell }).revision =
      { sC2 with prevRegion := Option.some rDwell }.revision + 2) ∧
    ((configEffect fZero rSame (Option.some CodingRate.cr45) sC2).data =
      (updateGraph fZero rSame CodingRate.cr45 rSame.spreadingFactors.headI
        rSame.bandwidths.headI rSame.loraMode 5 (rSame.maxMacPayloadSize + 5)
        sC2.prevRegion sC2.prevCodingRate sC2.data sC2.revision).1) := by
  refine ⟨?_, ?_, ?_⟩
  · have h := (C2_packet_size_rerun fZero rSame CodingRate.cr45 sC2 rfl rfl (by decide)).1
    have e : truthy rSame.maxDwellTime = false := rfl
    rw [e] at h
    simpa using h
  · have h := (C2_packet_size_rerun fZero rDwell CodingRate.cr45
      { sC2 with prevRegion := Option.some rDwell } rfl rfl (by decide)).1
    have e : truthy rDwell.maxDwellTime = true := rfl
    rw [e] at h
    simpa using h
  · exact (C2_packet_size_rerun fZero rSame CodingRate.cr45 sC2 rfl rfl (by decide)).2

/-- Claim C8, counterexample: a single logical change — a configuration
change to a region that declares a dwell time — increments the revision
counter twice (once in `updateGraph`, once in the overlay's render
trigger), not exactly once. -/
theorem C8_revision_counterexample :
    (configEffect fZero rDwell (Option.some CodingRate.cr45) initialState).revision ≠
      initialState.revision + 1 ∧
    (configEffect fZero rDwell (Option.some CodingRate.cr45) initialState).revision =
      initialState.revision + 2 := by
  have h1 : (configEffect fZero rDwell (Option.some CodingRate.cr45)
      initialState).revision = 2 := rfl
  have h2 : initialState.revision = 0 := rfl
  omega

/-- Claim C8, amended: every accepted mutation — vertical-axis toggle,
horizontal-mode toggle, viewport resize, and any configuration change that
recomputes the curves — strictly increases the revision counter (it never
decreases or repeats); but a configuration change is not exactly one
increment: when it also touches the dwell overlay, one trigger increments
the counter twice. -/
theorem C8_revision_monotone (s : GraphState) (w : ℚ) (f : AirtimeF) (r : Region)
    (c : CodingRate) (hmps : 0 < r.maxMacPayloadSize + 5) :
    s.revision < (toggleScale s).revision ∧
    s.revision < (toggleFitFullRange s).revision ∧
    s.revision < (resize w s).revision ∧
    s.revision < (configEffect f r (Option.some c) s).revision := by
  have hrev : (updateGraph f r c r.spreadingFactors.headI r.bandwidths.headI r.loraMode 5
      (r.maxMacPayloadSize + 5) s.prevRegion s.prevCodingRate s.data s.revision).2
      = s.revision + 1 := by
    unfold updateGraph
    rw [if_pos hmps]
  refine ⟨?_, ?_, ?_, ?_⟩
  · simp [toggleScale, verticalEffect]
  · simp [toggleFitFullRange, xaxisEffect]
  · simp [resize, xaxisEffect]
  · cases htr : truthy r.maxDwellTime with
    | true =>
      simp [configEffect, htr, hrev]
      omega
    | false =>
      cases hpd : prevDwellTruthy s.prevRegion with
      | true =>
        simp [configEffect, htr, hpd, hrev]
        omega
      | false => simp [configEffect, htr, hpd, hrev]

theorem C8_revision_monotone_witness :
    (sC2.revision < (toggleScale sC2).revision ∧
     sC2.revision < (toggleFitFullRange sC2).revision ∧
     sC2.revision < (resize 800 sC2).revision ∧
     sC2.revision < (configEffect fZero rDwell (Option.some CodingRate.cr45)
       sC2).revision) :=
  C8_revision_monotone sC2 800 fZero rDwell CodingRate.cr45 (by decide)

/-- Claim C1: starting in linear vertical mode with an existing dwell
overlay label at displayed y-coordinate `v > 0`, toggling the vertical
axis to logarithmic makes the label's displayed y-coordinate `log10 v`,
and toggling back to linear makes it exactly `v` again. -/
theorem C1_log_round_trip (s : GraphState) (a : Ann) (v : ℝ)
    (hlin : s.yAxisLogarithmic = false)
    (hann : s.layout.annotations = Option.some [a])
    (hy : a.y = v) (hv : 0 < v) :
    (toggleScale s).layout.annotations =
      Option.some [{ a with y := Real.logb 10 v }] ∧
    (toggleScale (toggleScale s)).layout.annotations =
      Option.some [{ a with y := v }] := by
  subst hy
  have h1 : (toggleScale s).layout.annotations =
      Option.some [{ a with y := Real.logb 10 a.y }] := by
    simp [toggleScale, verticalEffect, hlin, hann, toLogarithmic]
  refine ⟨h1, ?_⟩
  have h2 : (toggleScale s).yAxisLogarithmic = true := by
    simp [toggleScale, verticalEffect, hlin]
  have key : (10 : ℝ) ^ Real.logb 10 a.y = a.y :=
    Real.rpow_logb (by norm_num) (by norm_num) hv
  have hmap : (toggleScale (toggleScale s)).layout.annotations
      = ((toggleScale s).layout.annotations).map (List.map fun x =>
          { x with y := toLogarithmic (!(toggleScale s).yAxisLogarithmic) x.y }) := rfl
  rw [hmap, h1, h2]
  simp [toLogarithmic, key]

theorem C1_log_round_trip_witness :
    (toggleScale sOverlayLinear).layout.annotations =
      Option.some [{ annBase with y := Real.logb 10 500 }] ∧
    (toggleScale (toggleScale sOverlayLinear)).layout.annotations =
      Option.some [{ annBase with y := (500 : ℝ) }] :=
  C1_log_round_trip sOverlayLinear annBase 500 rfl rfl rfl (by norm_num)

/-- Claim C7, counterexample: a vertical-mode flip recomputes only the
label's displayed y-coordinate; the reference line's shape is left
untouched at the raw threshold, so after flipping to logarithmic the
label's y (log10 of 500) is not the line's stored y (500). -/
theorem C7_shape_not_recomputed :
    (toggleScale sOverlayLinear).layout.shapes = sOverlayLinear.layout.shapes ∧
    (toggleScale sOverlayLinear).layout.annotations =
      Option.some [{ annBase with y := Real.logb 10 500 }] ∧
    Real.logb 10 500 ≠ (500 : ℝ) := by
  refine ⟨rfl, ?_, ?_⟩
  · simp [toggleScale, verticalEffect, sOverlayLinear, initialState, initialLayout,
      toLogarithmic, annBase]
  · have h3 : Real.logb 10 500 < 3 := by
      rw [Real.logb_lt_iff_lt_rpow (by norm_num) (by norm_num)]
      have e : (10 : ℝ) ^ (3 : ℝ) = 1000 := by
        rw [show (3 : ℝ) = ((3 : ℕ) : ℝ) by norm_num, Real.rpow_natCast]
        norm_num
      rw [e]
      norm_num
    intro he
    rw [he] at h3
    norm_num at h3

/-- Claim C7, amended: on every vertical-axis mode flip while a dwell
overlay exists, only the label's displayed y-coordinate is recomputed
under the new scale (mapped through the logarithmic transform); the
reference line keeps its stored raw y-coordinates unchanged. -/
theorem C7_only_label_transformed (s : GraphState) (sh : Shape) (a : Ann)
    (hsh : s.layout.shapes = Option.some [sh])
    (hann : s.layout.annotations = Option.some [a]) :
    (toggleScale s).layout.shapes = Option.some [sh] ∧
    (toggleScale s).layout.annotations =
      Option.some [{ a with y := toLogarithmic (!s.yAxisLogarithmic) a.y }] := by
  constructor
  · rw [← hsh]
    rfl
  · simp [toggleScale, verticalEffect, hann]

theorem C7_only_label_transformed_witness :
    (toggleScale sOverlayLinear).layout.shapes = Option.some [shapeBase] ∧
    (toggleScale sOverlayLinear).layout.annotations =
      Option.some [{ annBase with
        y := toLogarithmic (!sOverlayLinear.yAxisLogarithmic) annBase.y }] :=
  C7_only_label_transformed sOverlayLinear shapeBase annBase rfl rfl

/-- Claim C3, code evaluation at the failing input: the catalog of `rC3`
holds two data rates with different spreading factors, and the airtime
formula instance `fSF` distinguishes them; yet the recomputation evaluates
every series at the single spreading factor and bandwidth passed by the
caller (the region's first of each, lines 84-95 and 123-124), so both
produced series carry the same y-values — not each data rate's own
airtime curve. -/
theorem C3_identical_curves :
    drC3a.spreadingFactor ≠ drC3b.spreadingFactor ∧
    fSF 25 drC3a.spreadingFactor Bandwidth.bw125 CodingRate.cr45 LoraMode.modeA
        preambleLength explicitHeader lowDataRateOptimize crc ≠
      fSF 25 drC3b.spreadingFactor Bandwidth.bw125 CodingRate.cr45 LoraMode.modeA
        preambleLength explicitHeader lowDataRateOptimize crc ∧
    ((updateGraph fSF rC3 CodingRate.cr45 rC3.spreadingFactors.headI
        rC3.bandwidths.headI rC3.loraMode 5 20 Option.none Option.none [] 0).1.map
      PlotData.y) =
      [(range 0 20 10).map (fun x => fSF (x + 5) SpreadingFactor.sf12 Bandwidth.bw125
          CodingRate.cr45 LoraMode.modeA preambleLength explicitHeader
          lowDataRateOptimize crc),
       (range 0 20 10).map (fun x => fSF (x + 5) SpreadingFactor.sf12 Bandwidth.bw125
          CodingRate.cr45 LoraMode.modeA preambleLength explicitHeader
          lowDataRateOptimize crc)] := by
  refine ⟨by decide, ?_, ?_⟩
  · simp only [drC3a, drC3b, fSF, sfNum]
    norm_num
  · rfl

/-- Claim C6, counterexample: switching from a region with a dwell time to
one without removes both the line and the label from the layout, but the
removal happens by in-place deletion on the previously published layout
object — the same object (same reference, modelled by `refId`) is
returned, not a new layout value (lines 171-177: `delete current.shapes;
delete current.annotations; return current`). -/
theorem C6_inplace_removal_counterexample :
    (configEffect fZero rNoDwell (Option.some CodingRate.cr45)
        (configEffect fZero rDwell (Option.some CodingRate.cr45)
          initialState)).layout.shapes = Option.none ∧
    (configEffect fZero rNoDwell (Option.some CodingRate.cr45)
        (configEffect fZero rDwell (Option.some CodingRate.cr45)
          initialState)).layout.annotations = Option.none ∧
    (configEffect fZero rNoDwell (Option.some CodingRate.cr45)
        (configEffect fZero rDwell (Option.some CodingRate.cr45)
          initialState)).layout.refId =
      (configEffect fZero rDwell (Option.some CodingRate.cr45)
        initialState).layout.refId := by
  refine ⟨rfl, rfl, rfl⟩

/-- Claim C6, amended: a configuration change to a region declaring a
(nonzero) maxDwellTime puts a dwell overlay — reference line plus label —
with that region's threshold value into the layout; a following change to
a region declaring none removes both the line and the label from the
layout entirely (not merely hidden), but the removal is an in-place field
deletion on the existing layout object: the same layout object is
returned (its reference, modelled by `refId`, is unchanged), no new
layout value is produced. -/
theorem C6_overlay_lifecycle (f : AirtimeF) (s : GraphState) (rD rN : Region)
    (c : CodingRate) (v : ℚ) (hd : rD.maxDwellTime = Option.some v) (hv : v ≠ 0)
    (hn : rN.maxDwellTime = Option.none) :
    ((configEffect f rD (Option.some c) s).layout.shapes =
        Option.some [dwellShape (v : ℝ)] ∧
     (configEffect f rD (Option.some c) s).layout.annotations =
        Option.some [dwellLabel (s.layout.yaxisType = Option.some AxisType.log)
          (v : ℝ)]) ∧
    ((configEffect f rN (Option.some c) (configEffect f rD (Option.some c)
        s)).layout.shapes = Option.none ∧
     (configEffect f rN (Option.some c) (configEffect f rD (Option.some c)
        s)).layout.annotations = Option.none ∧
     (configEffect f rN (Option.some c) (configEffect f rD (Option.some c)
        s)).layout.refId = s.layout.refId) := by
  have htv : truthy (Option.some v) = true := by simp [truthy, hv]
  have htn : truthy (Option.none : Option ℚ) = false := rfl
  refine ⟨⟨?_, ?_⟩, ?_, ?_, ?_⟩
  · simp [configEffect, prevDwellTruthy, hd, hn, htv, htn]
  · simp [configEffect, prevDwellTruthy, hd, hn, htv, htn]
  · simp [configEffect, prevDwellTruthy, hd, hn, htv, htn]
  · simp [configEffect, prevDwellTruthy, hd, hn, htv, htn]
  · simp [configEffect, prevDwellTruthy, hd, hn, htv, htn]

theorem C6_overlay_lifecycle_witness :
    ((configEffect fZero rDwell (Option.some CodingRate.cr45)
        initialState).layout.shapes = Option.some [dwellShape ((500 : ℚ) : ℝ)] ∧
     (configEffect fZero rDwell (Option.some CodingRate.cr45)
        initialState).layout.annotations =
        Option.some [dwellLabel
          (initialState.layout.yaxisType = Option.some AxisType.log) ((500 : ℚ) : ℝ)]) ∧
    ((configEffect fZero rNoDwell (Option.some CodingRate.cr45)
        (configEffect fZero rDwell (Option.some CodingRate.cr45)
          initialState)).layout.shapes = Option.none ∧
     (configEffect fZero rNoDwell (Option.some CodingRate.cr45)
        (configEffect fZero rDwell (Option.some CodingRate.cr45)
          initialState)).layout.annotations = Option.none ∧
     (configEffect fZero rNoDwell (Option.some CodingRate.cr45)
        (configEffect fZero rDwell (Option.some CodingRate.cr45)
          initialState)).layout.refId = initialState.layout.refId) :=
  C6_overlay_lifecycle fZero initialState rDwell rNoDwell CodingRate.cr45 500 rfl
    (by norm_num) rfl
